import Mathlib

/-!
Shallow embedding of the CMA valuation engine of this repository:
src/core/comparable_finder.py, src/core/adjustment_calculator.py and
src/data/property_service.py.

Modelling conventions:
- Python numbers (int, float, Numeric) are rationals; the decimal literals
  of the source (0.98, 1.2, ...) are the corresponding exact rationals.
- Optional database columns are Option values; Python truthiness of a
  numeric column (None and 0 are both falsy) is the function truthy.
- Dates are integer day numbers; datetime.now() is an explicit parameter
  now, so that days_ago = now - sale_date matches the subtraction of the
  source.
- Python int() conversion truncates toward zero: pyInt.
- Python round(x, 2) rounds half to even at two decimals: pyRound2.
- The haversine helper of comparable_finder.py is transcendental; the
  similarity scorer therefore takes the distance function as an explicit
  argument d, and the real-valued haversine is embedded separately as
  _calculate_distance together with a proof that it is nonnegative.
-/

namespace CMA

/-- Python int() conversion on a rational: truncation toward zero
(the executable Rat.floor is used so that concrete instances evaluate;
pyInt_eq below restates it with the floor and ceiling of Mathlib). -/
def pyInt (q : ℚ) : ℤ := if 0 ≤ q then q.floor else -(Rat.floor (-q))

/-- Python round(x, 2): round half to even at two decimal places. -/
def pyRound2 (q : ℚ) : ℚ :=
  let x := q * 100
  let f := ⌊x⌋
  let r := x - (f : ℚ)
  let n : ℤ :=
    if r < 1/2 then f
    else if (1:ℚ)/2 < r then f + 1
    else if Even f then f else f + 1
  (n : ℚ) / 100

/-- Python truthiness of an optional numeric column: None and 0 are falsy. -/
def truthy (o : Option ℚ) : Bool :=
  match o with
  | none => false
  | some v => decide (v ≠ 0)

/-- Python truthiness of an optional integer primary key. -/
def truthyId (o : Option ℤ) : Bool :=
  match o with
  | none => false
  | some v => decide (v ≠ 0)

/-- Property row (src/models/database.py, class Property).  Only the columns
read by the valuation engine are kept. -/
structure Property where
  id : Option ℤ
  address : String
  square_footage : Option ℚ
  bedrooms : Option ℚ
  bathrooms : Option ℚ
  year_built : Option ℚ
  lot_size : Option ℚ
  latitude : Option ℚ
  longitude : Option ℚ
deriving DecidableEq, Repr

/-- PropertySale row (src/models/database.py, class PropertySale). -/
structure PropertySale where
  property_id : ℤ
  sale_price : ℚ
  sale_date : ℤ
  days_on_market : Option ℚ
  sale_type : String
deriving DecidableEq, Repr

/-! ### Adjustment calculator (src/core/adjustment_calculator.py)

The adjustment_rates entries actually used by the code. -/

def price_per_sqft_base : ℚ := 150
def bedroom_adjustment_rate : ℚ := 15000
def bathroom_adjustment_rate : ℚ := 8000
def age_adjustment_per_year : ℚ := 500

/-- Lines 69-88: size adjustment, with the 1.2 / 0.8 rate bands. -/
def _calculate_size_adjustment (subject comparable : Property) : ℚ :=
  if truthy subject.square_footage && truthy comparable.square_footage then
    let ssf := subject.square_footage.getD 0
    let csf := comparable.square_footage.getD 0
    let size_difference := ssf - csf
    let price_per_sqft :=
      if csf < 1500 then price_per_sqft_base * (12/10)
      else if 3000 < csf then price_per_sqft_base * (8/10)
      else price_per_sqft_base
    size_difference * price_per_sqft
  else 0

/-- Lines 90-96: bedroom adjustment. -/
def _calculate_bedroom_adjustment (subject comparable : Property) : ℚ :=
  if truthy subject.bedrooms && truthy comparable.bedrooms then
    (subject.bedrooms.getD 0 - comparable.bedrooms.getD 0) * bedroom_adjustment_rate
  else 0

/-- Lines 98-104: bathroom adjustment. -/
def _calculate_bathroom_adjustment (subject comparable : Property) : ℚ :=
  if truthy subject.bathrooms && truthy comparable.bathrooms then
    (subject.bathrooms.getD 0 - comparable.bathrooms.getD 0) * bathroom_adjustment_rate
  else 0

/-- Lines 106-119: age adjustment, clamped to plus or minus 20 years. -/
def _calculate_age_adjustment (subject comparable : Property) : ℚ :=
  if truthy subject.year_built && truthy comparable.year_built then
    let age_difference := subject.year_built.getD 0 - comparable.year_built.getD 0
    let age_difference := max (-20) (min 20 age_difference)
    age_difference * age_adjustment_per_year
  else 0

/-- Lines 121-136: lot size adjustment with diminishing rate beyond 5000. -/
def _calculate_lot_size_adjustment (subject comparable : Property) : ℚ :=
  if truthy subject.lot_size && truthy comparable.lot_size then
    let lot_difference := subject.lot_size.getD 0 - comparable.lot_size.getD 0
    if |lot_difference| ≤ 5000 then lot_difference * 5
    else
      let sign : ℚ := if 0 < lot_difference then 1 else -1
      let base_adjustment := 5000 * 5 * sign
      let remaining_difference := |lot_difference| - 5000
      let additional_adjustment := remaining_difference * 2 * sign
      base_adjustment + additional_adjustment
  else 0

/-- Lines 138-158: market time adjustment.  days_ago is
(datetime.now() - sale_date).days, with now passed explicitly. -/
def _calculate_time_adjustment (now : ℤ) (comparable_sale : PropertySale) : ℚ :=
  let days_ago : ℤ := now - comparable_sale.sale_date
  if days_ago ≤ 90 then 0
  else
    let quarters_old : ℚ := ((days_ago : ℚ) - 90) / 90
    let appreciation_rate := min (2/100 : ℚ) ((1/100) * quarters_old)
    comparable_sale.sale_price * appreciation_rate

/-- Result of calculate_adjustments: the Python dict with one optional key
per category (present exactly when the value is nonzero) plus total. -/
structure Adjustments where
  size_adjustment : Option ℚ
  bedroom_adjustment : Option ℚ
  bathroom_adjustment : Option ℚ
  age_adjustment : Option ℚ
  lot_size_adjustment : Option ℚ
  time_adjustment : Option ℚ
  total : ℤ
deriving DecidableEq, Repr

/-- A category entry is stored only when the computed value is nonzero
(the if adj != 0 guards of lines 31-63). -/
def entry (v : ℚ) : Option ℚ := if v ≠ 0 then some v else none

/-- Lines 21-67: calculate_adjustments.  total accumulates exactly the
stored entries and is int()-truncated at line 65. -/
def calculate_adjustments (now : ℤ) (subject_property comparable_property : Property)
    (comparable_sale : PropertySale) : Adjustments :=
  let size_adj := _calculate_size_adjustment subject_property comparable_property
  let bedroom_adj := _calculate_bedroom_adjustment subject_property comparable_property
  let bathroom_adj := _calculate_bathroom_adjustment subject_property comparable_property
  let age_adj := _calculate_age_adjustment subject_property comparable_property
  let lot_adj := _calculate_lot_size_adjustment subject_property comparable_property
  let time_adj := _calculate_time_adjustment now comparable_sale
  let total_adjustment :=
    (if size_adj ≠ 0 then size_adj else 0) + (if bedroom_adj ≠ 0 then bedroom_adj else 0) +
    (if bathroom_adj ≠ 0 then bathroom_adj else 0) + (if age_adj ≠ 0 then age_adj else 0) +
    (if lot_adj ≠ 0 then lot_adj else 0) + (if time_adj ≠ 0 then time_adj else 0)
  { size_adjustment := entry size_adj
    bedroom_adjustment := entry bedroom_adj
    bathroom_adjustment := entry bathroom_adj
    age_adjustment := entry age_adj
    lot_size_adjustment := entry lot_adj
    time_adjustment := entry time_adj
    total := pyInt total_adjustment }

/-- Arithmetic sum of the named category entries present in an adjustment
set (absent entries contribute nothing). -/
def sumEntries (a : Adjustments) : ℚ :=
  a.size_adjustment.getD 0 + a.bedroom_adjustment.getD 0 + a.bathroom_adjustment.getD 0 +
  a.age_adjustment.getD 0 + a.lot_size_adjustment.getD 0 + a.time_adjustment.getD 0

/-- Lines 160-162: calculate_adjusted_price. -/
def calculate_adjusted_price (comparable_sale_price : ℚ) (adjustments : Adjustments) : ℚ :=
  comparable_sale_price + (adjustments.total : ℤ)

/-! ### Comparable finder (src/core/comparable_finder.py) -/

/-- Lines 85-101: haversine distance in miles, embedded over the reals.
math.radians converts degrees via multiplication by pi / 180. -/
noncomputable def _calculate_distance (lat1 lon1 lat2 lon2 : ℝ) : ℝ :=
  let lat1 := lat1 * (Real.pi / 180)
  let lon1 := lon1 * (Real.pi / 180)
  let lat2 := lat2 * (Real.pi / 180)
  let lon2 := lon2 * (Real.pi / 180)
  let dlat := lat2 - lat1
  let dlon := lon2 - lon1
  let a := Real.sin (dlat/2) ^ 2 + Real.cos lat1 * Real.cos lat2 * Real.sin (dlon/2) ^ 2
  let c := 2 * Real.arcsin (Real.sqrt a)
  c * 3956

/-- Lines 47-52: size factor of the similarity score (weight 30). -/
def size_term (subject comparable : Property) : ℚ :=
  if truthy subject.square_footage && truthy comparable.square_footage then
    let size_diff := |subject.square_footage.getD 0 - comparable.square_footage.getD 0|
    let max_size := max (subject.square_footage.getD 0) (comparable.square_footage.getD 0)
    max 0 (1 - size_diff / max_size) * 30
  else 0

/-- Lines 54-58: bedroom factor (weight 15, scaled by a 5 bedroom span). -/
def bedroom_term (subject comparable : Property) : ℚ :=
  if truthy subject.bedrooms && truthy comparable.bedrooms then
    max 0 (1 - |subject.bedrooms.getD 0 - comparable.bedrooms.getD 0| / 5) * 15
  else 0

/-- Lines 60-64: bathroom factor (weight 15, scaled by a 3 bathroom span). -/
def bathroom_term (subject comparable : Property) : ℚ :=
  if truthy subject.bathrooms && truthy comparable.bathrooms then
    max 0 (1 - |subject.bathrooms.getD 0 - comparable.bathrooms.getD 0| / 3) * 15
  else 0

/-- Lines 66-70: age factor (weight 20, scaled by a 50 year span). -/
def age_term (subject comparable : Property) : ℚ :=
  if truthy subject.year_built && truthy comparable.year_built then
    max 0 (1 - |subject.year_built.getD 0 - comparable.year_built.getD 0| / 50) * 20
  else 0

/-- Lines 72-81: proximity factor (weight 20, scaled by 10 miles), taking
the distance computation d as an explicit argument. -/
def proximity_term (d : ℚ → ℚ → ℚ → ℚ → ℚ) (subject comparable : Property) : ℚ :=
  if truthy subject.latitude && truthy subject.longitude &&
      truthy comparable.latitude && truthy comparable.longitude then
    let distance := d (subject.latitude.getD 0) (subject.longitude.getD 0)
      (comparable.latitude.getD 0) (comparable.longitude.getD 0)
    max 0 (1 - distance / 10) * 20
  else 0

/-- Lines 40-83: _calculate_similarity_score, the running sum of the five
factor contributions in source order. -/
def _calculate_similarity_score (d : ℚ → ℚ → ℚ → ℚ → ℚ)
    (subject comparable : Property) : ℚ :=
  size_term subject comparable + bedroom_term subject comparable +
    bathroom_term subject comparable + age_term subject comparable +
    proximity_term d subject comparable

/-- One element of the list returned by find_comparables: a
(property, sale, similarity score) triple. -/
structure ScoredComp where
  prop : Property
  sale : PropertySale
  score : ℚ
deriving DecidableEq, Repr

/-- Line 37: the comparison used by scored_comps.sort(key=..., reverse=True).
Python list.sort is a stable sort; with reverse=True an element stays before
another exactly when its key is not smaller. -/
def sortLE (a b : ScoredComp) : Bool := decide (b.score ≤ a.score)

/-- Lines 18-28: the eligibility filter of the query.  cutoff_date is
now - 180 days; the subject is excluded by primary key only when its id is
truthy (the conditional expression of line 25). -/
def qualifies (now : ℤ) (subject_property : Property) (pc : Property × PropertySale) : Bool :=
  let cutoff_date := now - 180
  decide (cutoff_date ≤ pc.2.sale_date) && (pc.2.sale_type == "sold") &&
    (if truthyId subject_property.id then decide (pc.1.id ≠ subject_property.id) else true)

/-- Lines 30-34: score every eligible candidate of the pool, in pool order. -/
def scored_comps (d : ℚ → ℚ → ℚ → ℚ → ℚ) (now : ℤ) (subject_property : Property)
    (pool : List (Property × PropertySale)) : List ScoredComp :=
  (pool.filter (qualifies now subject_property)).map
    (fun pc => { prop := pc.1, sale := pc.2
                 score := _calculate_similarity_score d subject_property pc.1 })

/-- Lines 14-38: find_comparables.  Stable descending sort by score, then
truncation to max_results (the caller perform_cma_analysis passes the
default 6). -/
def find_comparables (d : ℚ → ℚ → ℚ → ℚ → ℚ) (now : ℤ) (subject_property : Property)
    (pool : List (Property × PropertySale)) (max_results : ℕ) : List ScoredComp :=
  ((scored_comps d now subject_property pool).mergeSort sortLE).take max_results

/-! ### Valuation aggregation (src/data/property_service.py, perform_cma_analysis) -/

/-- Python min over a list, defined on the nonempty lists the code reaches
(min of an empty list raises in Python; the empty case here is junk 0). -/
def pyMin (l : List ℚ) : ℚ :=
  match l with
  | [] => 0
  | x :: xs => xs.foldl min x

/-- Python max over a list (empty case junk 0, unreachable in the code). -/
def pyMax (l : List ℚ) : ℚ :=
  match l with
  | [] => 0
  | x :: xs => xs.foldl max x

/-- Python min over the integer adjustment totals. -/
def pyMinZ (l : List ℤ) : ℤ :=
  match l with
  | [] => 0
  | x :: xs => xs.foldl min x

/-- Python max over the integer adjustment totals. -/
def pyMaxZ (l : List ℤ) : ℤ :=
  match l with
  | [] => 0
  | x :: xs => xs.foldl max x

/-- The estimated_value dict of the result. -/
structure EstimatedValue where
  low : ℤ
  high : ℤ
  most_likely : ℤ
deriving DecidableEq, Repr

/-- Lines 105-122: the estimate aggregation over the adjusted prices,
including the redundant empty-list fallback of lines 116-122. -/
def estimatedValueOf (adjusted_prices : List ℚ) : EstimatedValue :=
  match adjusted_prices with
  | [] => { low := 350000, high := 450000, most_likely := 400000 }
  | x :: xs =>
    let avg_price := (x :: xs).sum / ((x :: xs).length : ℚ)
    let low_estimate := pyMin (x :: xs) * (98/100)
    let high_estimate := pyMax (x :: xs) * (102/100)
    { low := pyInt low_estimate, high := pyInt high_estimate, most_likely := pyInt avg_price }

/-- One entry of the comparables list of the result.  The formatted
sale_date string is presentation only and is not modelled; keys absent
from the fallback entry are none there. -/
structure ComparableInfo where
  address : String
  sale_price : ℚ
  square_feet : Option ℚ
  bedrooms : Option ℚ
  bathrooms : Option ℚ
  year_built : Option ℚ
  lot_size : Option ℚ
  similarity_score : ℚ
  days_on_market : Option ℚ
  adjustments : Adjustments
  adjusted_price : ℤ
deriving DecidableEq, Repr

/-- The adjustment_summary dict of the result (lines 141-147). -/
structure AdjustmentSummary where
  average_adjustment : ℤ
  adjustment_range_min : ℤ
  adjustment_range_max : ℤ
deriving DecidableEq, Repr

/-- The dict returned by perform_cma_analysis.  adjustment_summary is
absent on the fallback path. -/
structure CMAResult where
  estimated_value : EstimatedValue
  comparables : List ComparableInfo
  confidence_score : ℚ
  adjustment_summary : Option AdjustmentSummary
deriving DecidableEq, Repr

/-- Lines 58-68: the synthetic entry of the no-comparables fallback.
square_feet is subject_property.square_footage or 2000 (truthiness). -/
def fallbackComparable (subject_property : Property) : ComparableInfo :=
  { address := "No comparables found - using estimate"
    sale_price := 400000
    square_feet := some (if truthy subject_property.square_footage then
      subject_property.square_footage.getD 0 else 2000)
    bedrooms := none
    bathrooms := none
    year_built := none
    lot_size := none
    similarity_score := 0
    days_on_market := none
    adjustments := { size_adjustment := none, bedroom_adjustment := none
                     bathroom_adjustment := none, age_adjustment := none
                     lot_size_adjustment := none, time_adjustment := none, total := 0 }
    adjusted_price := 400000 }

/-- Lines 76-103: the comparable_info dict built for one scored comparable. -/
def mkComparableInfo (now : ℤ) (subject_property : Property) (c : ScoredComp) : ComparableInfo :=
  let adjustments := calculate_adjustments now subject_property c.prop c.sale
  { address := c.prop.address
    sale_price := c.sale.sale_price
    square_feet := c.prop.square_footage
    bedrooms := c.prop.bedrooms
    bathrooms := c.prop.bathrooms
    year_built := c.prop.year_built
    lot_size := c.prop.lot_size
    similarity_score := pyRound2 c.score
    days_on_market := c.sale.days_on_market
    adjustments := adjustments
    adjusted_price := pyInt (calculate_adjusted_price c.sale.sale_price adjustments) }

/-- The untruncated adjusted price appended to adjusted_prices (line 103). -/
def adjustedPriceOf (now : ℤ) (subject_property : Property) (c : ScoredComp) : ℚ :=
  calculate_adjusted_price c.sale.sale_price
    (calculate_adjustments now subject_property c.prop c.sale)

/-- Lines 43-148: perform_cma_analysis, with datetime.now() as the explicit
parameter now and the distance computation d threaded to the finder. -/
def perform_cma_analysis (d : ℚ → ℚ → ℚ → ℚ → ℚ) (now : ℤ) (subject_property : Property)
    (pool : List (Property × PropertySale)) : CMAResult :=
  let comparables := find_comparables d now subject_property pool 6
  match comparables with
  | [] =>
    { estimated_value := { low := 350000, high := 450000, most_likely := 400000 }
      comparables := [fallbackComparable subject_property]
      confidence_score := 3/10
      adjustment_summary := none }
  | c :: cs =>
    let comparable_data := (c :: cs).map (mkComparableInfo now subject_property)
    let adjusted_prices := (c :: cs).map (adjustedPriceOf now subject_property)
    let estimated_value := estimatedValueOf adjusted_prices
    let base_confidence : ℚ := 1/2 + ((c :: cs).length : ℚ) * (8/100)
    let avg_adjustment_ratio :=
      (comparable_data.map (fun info => |(info.adjustments.total : ℚ)| / info.sale_price)).sum /
        (comparable_data.length : ℚ)
    let adjustment_confidence_boost := max 0 ((2/10) * (1 - avg_adjustment_ratio))
    let confidence_score := min (95/100) (base_confidence + adjustment_confidence_boost)
    { estimated_value := estimated_value
      comparables := comparable_data
      confidence_score := pyRound2 confidence_score
      adjustment_summary := some
        { average_adjustment :=
            pyInt ((comparable_data.map (fun info => (info.adjustments.total : ℚ))).sum /
              (comparable_data.length : ℚ))
          adjustment_range_min := pyMinZ (comparable_data.map (fun info => info.adjustments.total))
          adjustment_range_max := pyMaxZ (comparable_data.map (fun info => info.adjustments.total)) } }

/-- Replace a zero numeric value by an absent one. -/
def znQ (o : Option ℚ) : Option ℚ :=
  match o with
  | none => none
  | some v => if v = 0 then none else some v

/-- Replace every zero value of the five optional numeric columns read by
the scorer and the adjustment calculator by an absent one. -/
def zeroToNone (p : Property) : Property :=
  { p with square_footage := znQ p.square_footage, bedrooms := znQ p.bedrooms
           bathrooms := znQ p.bathrooms, year_built := znQ p.year_built
           lot_size := znQ p.lot_size }

/-! ### Concrete fixtures used by witnesses and counterexamples -/

/-- Distance oracle used in concrete instances (never consulted when a
coordinate is missing). -/
def d0 : ℚ → ℚ → ℚ → ℚ → ℚ := fun _ _ _ _ => 0

/-- A property with every optional column absent. -/
def blankProperty : Property :=
  { id := none, address := "", square_footage := none, bedrooms := none
    bathrooms := none, year_built := none, lot_size := none
    latitude := none, longitude := none }

/-- A sold sale at the given price and date. -/
def mkSale (price : ℚ) (date : ℤ) : PropertySale :=
  { property_id := 1, sale_price := price, sale_date := date
    days_on_market := none, sale_type := "sold" }

/-! ## Theorems -/

/-! ### Basic helper lemmas -/

theorem entry_getD (v : ℚ) : (entry v).getD 0 = v := by
  unfold entry; split <;> simp_all

theorem ite_ne_self (v : ℚ) : (if v ≠ 0 then v else 0) = v := by
  split <;> simp_all

theorem ite_eq_zero_self (v : ℚ) : (if v = 0 then 0 else v) = v := by
  split <;> simp_all

theorem ratFloor_eq_floor (q : ℚ) : q.floor = ⌊q⌋ := by
  rw [Rat.floor_def', Rat.floor_def]

theorem pyInt_eq (q : ℚ) : pyInt q = if 0 ≤ q then ⌊q⌋ else ⌈q⌉ := by
  unfold pyInt
  split
  · rw [ratFloor_eq_floor]
  · rw [ratFloor_eq_floor, Int.floor_neg, neg_neg]

theorem truthy_znQ (o : Option ℚ) : truthy (znQ o) = truthy o := by
  cases o with
  | none => rfl
  | some v =>
    by_cases h : v = 0 <;> simp [znQ, truthy, h]

theorem getD_znQ (o : Option ℚ) : (znQ o).getD 0 = o.getD 0 := by
  cases o with
  | none => rfl
  | some v =>
    by_cases h : v = 0 <;> simp [znQ, h]

theorem pyInt_mono {a b : ℚ} (h : a ≤ b) : pyInt a ≤ pyInt b := by
  rw [pyInt_eq, pyInt_eq]
  split <;> split
  · exact Int.floor_le_floor h
  · rename_i ha hb; exact absurd (le_trans ha h) hb
  · rename_i ha hb
    have h1 : ⌈a⌉ ≤ 0 := Int.ceil_le.mpr (by push_cast; linarith [le_of_not_le ha])
    exact le_trans h1 (Int.floor_nonneg.mpr hb)
  · exact Int.ceil_le_ceil h

theorem truthy_getD_ne {o : Option ℚ} (h : truthy o = true) : o.getD 0 ≠ 0 := by
  cases o with
  | none => simp [truthy] at h
  | some v => simpa [truthy] using h

/-- A factor contribution max 0 (1 - t) * w lies in [0, w] whenever the
scaled difference t is nonnegative. -/
theorem factor_bounds {t w : ℚ} (ht : 0 ≤ t) (hw : 0 ≤ w) :
    0 ≤ max 0 (1 - t) * w ∧ max 0 (1 - t) * w ≤ w := by
  constructor
  · exact mul_nonneg (le_max_left _ _) hw
  · have h1 : max 0 (1 - t) ≤ 1 := max_le (by norm_num) (by linarith)
    calc max 0 (1 - t) * w ≤ 1 * w := mul_le_mul_of_nonneg_right h1 hw
      _ = w := one_mul w

theorem size_term_bounds (s c : Property) (hs : 0 ≤ s.square_footage.getD 0) :
    0 ≤ size_term s c ∧ size_term s c ≤ 30 := by
  unfold size_term
  split
  · exact factor_bounds
      (div_nonneg (abs_nonneg _) (le_trans hs (le_max_left _ _))) (by norm_num)
  · norm_num

theorem bedroom_term_bounds (s c : Property) :
    0 ≤ bedroom_term s c ∧ bedroom_term s c ≤ 15 := by
  unfold bedroom_term
  split
  · exact factor_bounds (div_nonneg (abs_nonneg _) (by norm_num)) (by norm_num)
  · norm_num

theorem bathroom_term_bounds (s c : Property) :
    0 ≤ bathroom_term s c ∧ bathroom_term s c ≤ 15 := by
  unfold bathroom_term
  split
  · exact factor_bounds (div_nonneg (abs_nonneg _) (by norm_num)) (by norm_num)
  · norm_num

theorem age_term_bounds (s c : Property) :
    0 ≤ age_term s c ∧ age_term s c ≤ 20 := by
  unfold age_term
  split
  · exact factor_bounds (div_nonneg (abs_nonneg _) (by norm_num)) (by norm_num)
  · norm_num

theorem proximity_term_bounds (d : ℚ → ℚ → ℚ → ℚ → ℚ) (s c : Property)
    (hd : ∀ a b x y, 0 ≤ d a b x y) :
    0 ≤ proximity_term d s c ∧ proximity_term d s c ≤ 20 := by
  unfold proximity_term
  split
  · exact factor_bounds (div_nonneg (hd _ _ _ _) (by norm_num)) (by norm_num)
  · norm_num

/-- The embedded haversine distance is nonnegative, so the hypothesis on
the distance oracle used below is satisfied by the source computation. -/
theorem _calculate_distance_nonneg (lat1 lon1 lat2 lon2 : ℝ) :
    0 ≤ _calculate_distance lat1 lon1 lat2 lon2 := by
  unfold _calculate_distance
  have h1 : 0 ≤ Real.arcsin (Real.sqrt
      (Real.sin ((lat2 * (Real.pi / 180) - lat1 * (Real.pi / 180))/2) ^ 2 +
        Real.cos (lat1 * (Real.pi / 180)) * Real.cos (lat2 * (Real.pi / 180)) *
          Real.sin ((lon2 * (Real.pi / 180) - lon1 * (Real.pi / 180))/2) ^ 2)) :=
    Real.arcsin_nonneg.mpr (Real.sqrt_nonneg _)
  nlinarith

/-! ### List helper lemmas for the aggregation bounds -/

theorem foldl_min_mem (x : ℚ) (xs : List ℚ) : xs.foldl min x ∈ x :: xs := by
  induction xs generalizing x with
  | nil => simp
  | cons y ys ih =>
    simp only [List.foldl_cons]
    rcases List.mem_cons.mp (ih (min x y)) with h1 | h1
    · rw [h1]
      rcases min_choice x y with h2 | h2 <;> rw [h2] <;> simp
    · exact List.mem_cons_of_mem _ (List.mem_cons_of_mem _ h1)

theorem foldl_max_mem (x : ℚ) (xs : List ℚ) : xs.foldl max x ∈ x :: xs := by
  induction xs generalizing x with
  | nil => simp
  | cons y ys ih =>
    simp only [List.foldl_cons]
    rcases List.mem_cons.mp (ih (max x y)) with h1 | h1
    · rw [h1]
      rcases max_choice x y with h2 | h2 <;> rw [h2] <;> simp
    · exact List.mem_cons_of_mem _ (List.mem_cons_of_mem _ h1)

theorem foldl_min_le (x : ℚ) (xs : List ℚ) : ∀ y ∈ x :: xs, xs.foldl min x ≤ y := by
  induction xs generalizing x with
  | nil =>
    intro y hy
    simp only [List.mem_singleton] at hy
    simp [hy]
  | cons z zs ih =>
    intro y hy
    simp only [List.foldl_cons]
    have hmin := ih (min x z)
    rcases List.mem_cons.mp hy with h1 | hy1
    · rw [h1]
      exact le_trans (hmin _ (List.mem_cons_self _ _)) (min_le_left x z)
    · rcases List.mem_cons.mp hy1 with h2 | hy2
      · rw [h2]
        exact le_trans (hmin _ (List.mem_cons_self _ _)) (min_le_right x z)
      · exact hmin y (List.mem_cons_of_mem _ hy2)

theorem le_foldl_max (x : ℚ) (xs : List ℚ) : ∀ y ∈ x :: xs, y ≤ xs.foldl max x := by
  induction xs generalizing x with
  | nil =>
    intro y hy
    simp only [List.mem_singleton] at hy
    simp [hy]
  | cons z zs ih =>
    intro y hy
    simp only [List.foldl_cons]
    have hmax := ih (max x z)
    rcases List.mem_cons.mp hy with h1 | hy1
    · rw [h1]
      exact le_trans (le_max_left x z) (hmax _ (List.mem_cons_self _ _))
    · rcases List.mem_cons.mp hy1 with h2 | hy2
      · rw [h2]
        exact le_trans (le_max_right x z) (hmax _ (List.mem_cons_self _ _))
      · exact hmax y (List.mem_cons_of_mem _ hy2)

theorem mul_length_le_sum (m : ℚ) (l : List ℚ) (h : ∀ y ∈ l, m ≤ y) :
    m * l.length ≤ l.sum := by
  induction l with
  | nil => simp
  | cons y ys ih =>
    have h1 := h y (List.mem_cons_self _ _)
    have h2 := ih (fun z hz => h z (List.mem_cons_of_mem _ hz))
    simp only [List.sum_cons, List.length_cons]
    push_cast
    nlinarith

theorem sum_le_mul_length (M : ℚ) (l : List ℚ) (h : ∀ y ∈ l, y ≤ M) :
    l.sum ≤ M * l.length := by
  induction l with
  | nil => simp
  | cons y ys ih =>
    have h1 := h y (List.mem_cons_self _ _)
    have h2 := ih (fun z hz => h z (List.mem_cons_of_mem _ hz))
    simp only [List.sum_cons, List.length_cons]
    push_cast
    nlinarith

/-- Evaluation of the finder on a singleton pool whose element qualifies
(mergeSort is opaque to definitional reduction, so concrete instances go
through this lemma). -/
theorem find_comparables_single (d : ℚ → ℚ → ℚ → ℚ → ℚ) (now : ℤ) (s : Property)
    (pc : Property × PropertySale) (h : qualifies now s pc = true) :
    find_comparables d now s [pc] 6 =
      [{ prop := pc.1, sale := pc.2, score := _calculate_similarity_score d s pc.1 }] := by
  simp [find_comparables, scored_comps, List.filter_cons, h, List.mergeSort_singleton]

/-! ### C1: the total field versus the sum of the stored entries -/

theorem time_adj_135_eval : _calculate_time_adjustment 135 (mkSale 100001 0) = 100001/200 := by
  norm_num [_calculate_time_adjustment, mkSale, min_def]

theorem adjustments_135_eval :
    calculate_adjustments 135 blankProperty blankProperty (mkSale 100001 0) =
    { size_adjustment := none, bedroom_adjustment := none, bathroom_adjustment := none
      age_adjustment := none, lot_size_adjustment := none
      time_adjustment := some (100001/200), total := 500 } := by
  simp [calculate_adjustments, _calculate_size_adjustment, _calculate_bedroom_adjustment,
    _calculate_bathroom_adjustment, _calculate_age_adjustment, _calculate_lot_size_adjustment,
    time_adj_135_eval, blankProperty, truthy, entry, pyInt_eq]
  norm_num

/-- C1 (counterexample): with no property differences and a sale of price
100001 made 135 days before now, the only entry is the time adjustment
100001/200 = 500.005, while the stored total is the truncated 500; the
total is therefore not equal to the arithmetic sum of the other entries. -/
theorem c1_counterexample :
    ¬ (((calculate_adjustments 135 blankProperty blankProperty (mkSale 100001 0)).total : ℚ) =
      sumEntries (calculate_adjustments 135 blankProperty blankProperty (mkSale 100001 0))) := by
  rw [adjustments_135_eval]
  norm_num [sumEntries]

/-- C1 (amended): for every subject, comparable, sale and clock value, the
total field of the adjustment set returned by calculate_adjustments equals
the arithmetic sum of the named category entries present in the set
truncated toward zero to an integer (the int() conversion of the source),
rather than that sum itself. -/
theorem c1_total_truncated_sum (now : ℤ) (s c : Property) (sale : PropertySale) :
    (calculate_adjustments now s c sale).total =
      pyInt (sumEntries (calculate_adjustments now s c sale)) := by
  simp [calculate_adjustments, sumEntries, entry_getD, ite_ne_self, ite_eq_zero_self]

/-! ### C2: ordering of the aggregated estimates -/

theorem qualifies_c2 : qualifies 50 { blankProperty with square_footage := some 500 }
    ({ blankProperty with square_footage := some 4000 }, mkSale 100000 40) = true := by
  decide

theorem estimated_value_c2 :
    (perform_cma_analysis d0 50 { blankProperty with square_footage := some 500 }
      [({ blankProperty with square_footage := some 4000 }, mkSale 100000 40)]).estimated_value =
    { low := -313600, high := -326400, most_likely := -320000 } := by
  rw [perform_cma_analysis, find_comparables_single d0 50 _ _ qualifies_c2]
  norm_num [mkComparableInfo, adjustedPriceOf, calculate_adjustments, calculate_adjusted_price,
    _calculate_size_adjustment, _calculate_bedroom_adjustment, _calculate_bathroom_adjustment,
    _calculate_age_adjustment, _calculate_lot_size_adjustment, _calculate_time_adjustment,
    _calculate_similarity_score, size_term, bedroom_term, bathroom_term, age_term, proximity_term,
    estimatedValueOf, pyMin, pyMax, pyInt_eq, truthy, entry, blankProperty, mkSale, d0,
    price_per_sqft_base, bedroom_adjustment_rate, bathroom_adjustment_rate, age_adjustment_per_year,
    Int.ceil_neg, Int.ceil_ofNat, Int.floor_ofNat]

/-- C2 (counterexample): a subject of 500 sq ft against a 4000 sq ft
comparable sold at 100000 produces the adjusted price -320000; the code
then reports low -313600, most_likely -320000, high -326400, violating
low less-or-equal most_likely less-or-equal high.  The claim as stated
over every set of adjusted prices is therefore false. -/
theorem c2_counterexample :
    ¬ ((perform_cma_analysis d0 50 { blankProperty with square_footage := some 500 }
        [({ blankProperty with square_footage := some 4000 }, mkSale 100000 40)]).estimated_value.low ≤
      (perform_cma_analysis d0 50 { blankProperty with square_footage := some 500 }
        [({ blankProperty with square_footage := some 4000 }, mkSale 100000 40)]).estimated_value.most_likely ∧
      (perform_cma_analysis d0 50 { blankProperty with square_footage := some 500 }
        [({ blankProperty with square_footage := some 4000 }, mkSale 100000 40)]).estimated_value.most_likely ≤
      (perform_cma_analysis d0 50 { blankProperty with square_footage := some 500 }
        [({ blankProperty with square_footage := some 4000 }, mkSale 100000 40)]).estimated_value.high) := by
  rw [estimated_value_c2]
  norm_num

/-- C2 (amended): for every nonempty list of adjusted comparable prices
that are all nonnegative, the aggregation of perform_cma_analysis
satisfies low less-or-equal most_likely less-or-equal high, where low and
high truncate min times 0.98 and max times 1.02 and most_likely truncates
the arithmetic mean (int() truncation, which on nonnegative values equals
rounding down).  The nonnegativity restriction is forced by the
counterexample above. -/
theorem c2_low_le_most_likely_le_high (prices : List ℚ) (hne : prices ≠ [])
    (hpos : ∀ p ∈ prices, 0 ≤ p) :
    (estimatedValueOf prices).low ≤ (estimatedValueOf prices).most_likely ∧
    (estimatedValueOf prices).most_likely ≤ (estimatedValueOf prices).high := by
  cases prices with
  | nil => exact absurd rfl hne
  | cons x xs =>
    simp only [estimatedValueOf, pyMin, pyMax]
    have hm0 : 0 ≤ xs.foldl min x := hpos _ (foldl_min_mem x xs)
    have hM0 : 0 ≤ xs.foldl max x := hpos _ (foldl_max_mem x xs)
    have hn : (0:ℚ) < ((x :: xs).length : ℚ) := by
      rw [List.length_cons]
      exact_mod_cast Nat.succ_pos xs.length
    have hmle : xs.foldl min x * ((x :: xs).length : ℚ) ≤ (x :: xs).sum :=
      mul_length_le_sum _ _ (foldl_min_le x xs)
    have hMge : (x :: xs).sum ≤ xs.foldl max x * ((x :: xs).length : ℚ) :=
      sum_le_mul_length _ _ (le_foldl_max x xs)
    constructor
    · apply pyInt_mono
      have h1 : xs.foldl min x * (98/100) ≤ xs.foldl min x :=
        mul_le_of_le_one_right hm0 (by norm_num)
      have h2 : xs.foldl min x ≤ (x :: xs).sum / ((x :: xs).length : ℚ) :=
        (le_div_iff₀ hn).mpr hmle
      linarith
    · apply pyInt_mono
      have h1 : (x :: xs).sum / ((x :: xs).length : ℚ) ≤ xs.foldl max x :=
        (div_le_iff₀ hn).mpr hMge
      have h2 : xs.foldl max x ≤ xs.foldl max x * (102/100) :=
        le_mul_of_one_le_right hM0 (by norm_num)
      linarith

/-- C2 (witness): the amended theorem applied to the price list
[100, 200]. -/
theorem c2_witness :
    (estimatedValueOf [100, 200]).low ≤ (estimatedValueOf [100, 200]).most_likely ∧
    (estimatedValueOf [100, 200]).most_likely ≤ (estimatedValueOf [100, 200]).high :=
  c2_low_le_most_likely_le_high [100, 200] (by simp)
    (by intro p hp; simp only [List.mem_cons, List.mem_singleton] at hp
        rcases hp with rfl | rfl | h
        · norm_num
        · norm_num
        · simp at h)

/-! ### C5: similarity score bounds -/

/-- C5: for every subject and candidate whose present square footage is
nonnegative (valid records) and any nonnegative distance computation, the
similarity score lies in [0, 100]; and the score is exactly 0 when every
one of the five factors has a falsy (missing) relevant field on at least
one side. -/
theorem c5_score_bounds (d : ℚ → ℚ → ℚ → ℚ → ℚ) (s c : Property)
    (hs : 0 ≤ s.square_footage.getD 0)
    (hd : ∀ a b x y, 0 ≤ d a b x y) :
    (0 ≤ _calculate_similarity_score d s c ∧ _calculate_similarity_score d s c ≤ 100) ∧
    ((truthy s.square_footage && truthy c.square_footage) = false →
      (truthy s.bedrooms && truthy c.bedrooms) = false →
      (truthy s.bathrooms && truthy c.bathrooms) = false →
      (truthy s.year_built && truthy c.year_built) = false →
      (truthy s.latitude && truthy s.longitude &&
        truthy c.latitude && truthy c.longitude) = false →
      _calculate_similarity_score d s c = 0) := by
  constructor
  · have h1 := size_term_bounds s c hs
    have h2 := bedroom_term_bounds s c
    have h3 := bathroom_term_bounds s c
    have h4 := age_term_bounds s c
    have h5 := proximity_term_bounds d s c hd
    unfold _calculate_similarity_score
    constructor
    · linarith [h1.1, h2.1, h3.1, h4.1, h5.1]
    · linarith [h1.2, h2.2, h3.2, h4.2, h5.2]
  · intro g1 g2 g3 g4 g5
    simp [_calculate_similarity_score, size_term, bedroom_term, bathroom_term, age_term,
      proximity_term, g1, g2, g3, g4, g5]

/-- C5 (witness): the theorem applied to two blank properties and the zero
distance oracle. -/
theorem c5_witness :
    (0 ≤ _calculate_similarity_score d0 blankProperty blankProperty ∧
      _calculate_similarity_score d0 blankProperty blankProperty ≤ 100) ∧
    _calculate_similarity_score d0 blankProperty blankProperty = 0 := by
  have h := c5_score_bounds d0 blankProperty blankProperty
    (by simp [blankProperty]) (fun _ _ _ _ => le_refl 0)
  exact ⟨h.1, h.2 rfl rfl rfl rfl rfl⟩

/-! ### C8: the market time adjustment -/

/-- C8: for every sale with positive sale price, the time adjustment is 0
when the sale is at most 90 days old, is nonnegative and monotonically
non-decreasing in days_ago beyond 90 days, and never exceeds 2 percent of
the sale price. -/
theorem c8_time_adjustment (sale : PropertySale) (now1 now2 : ℤ)
    (hp : 0 < sale.sale_price) :
    (now1 - sale.sale_date ≤ 90 → _calculate_time_adjustment now1 sale = 0) ∧
    (90 < now1 - sale.sale_date → 0 ≤ _calculate_time_adjustment now1 sale) ∧
    (90 < now1 - sale.sale_date → now1 ≤ now2 →
      _calculate_time_adjustment now1 sale ≤ _calculate_time_adjustment now2 sale) ∧
    _calculate_time_adjustment now1 sale ≤ (2/100) * sale.sale_price := by
  refine ⟨?_, ?_, ?_, ?_⟩
  · intro h
    simp only [_calculate_time_adjustment]
    rw [if_pos h]
  · intro h
    have hc : (90:ℚ) ≤ ((now1 - sale.sale_date : ℤ) : ℚ) := by exact_mod_cast h.le
    simp only [_calculate_time_adjustment]
    rw [if_neg (not_le.mpr h)]
    refine mul_nonneg hp.le (le_min (by norm_num) ?_)
    have : (0:ℚ) ≤ ((now1 - sale.sale_date : ℤ) : ℚ) - 90 := by linarith
    positivity
  · intro h1 h12
    have h2 : 90 < now2 - sale.sale_date := by omega
    have hc : ((now1 - sale.sale_date : ℤ) : ℚ) ≤ ((now2 - sale.sale_date : ℤ) : ℚ) := by
      exact_mod_cast (by omega : now1 - sale.sale_date ≤ now2 - sale.sale_date)
    simp only [_calculate_time_adjustment]
    rw [if_neg (not_le.mpr h1), if_neg (not_le.mpr h2)]
    refine mul_le_mul_of_nonneg_left (min_le_min le_rfl ?_) hp.le
    refine mul_le_mul_of_nonneg_left ?_ (by norm_num)
    have h90 : (0:ℚ) < 90 := by norm_num
    exact (div_le_div_iff_of_pos_right h90).mpr (by linarith)
  · simp only [_calculate_time_adjustment]
    split
    · exact mul_nonneg (by norm_num) hp.le
    · calc sale.sale_price * min (2/100 : ℚ) _
          ≤ sale.sale_price * (2/100) := mul_le_mul_of_nonneg_left (min_le_left _ _) hp.le
        _ = (2/100) * sale.sale_price := mul_comm _ _

/-- C8 (witness): the theorem applied to a 100000 dollar sale observed 100
and 200 days after the sale date. -/
theorem c8_witness :
    (0:ℚ) < 100000 ∧
    ((100 - (mkSale 100000 0).sale_date ≤ 90 →
        _calculate_time_adjustment 100 (mkSale 100000 0) = 0) ∧
      (90 < 100 - (mkSale 100000 0).sale_date →
        0 ≤ _calculate_time_adjustment 100 (mkSale 100000 0)) ∧
      (90 < 100 - (mkSale 100000 0).sale_date → (100:ℤ) ≤ 200 →
        _calculate_time_adjustment 100 (mkSale 100000 0) ≤
          _calculate_time_adjustment 200 (mkSale 100000 0)) ∧
      _calculate_time_adjustment 100 (mkSale 100000 0) ≤
        (2/100) * (mkSale 100000 0).sale_price) :=
  ⟨by norm_num, c8_time_adjustment (mkSale 100000 0) 100 200 (by norm_num [mkSale])⟩

/-! ### C6: ranking order, stability, truncation -/

theorem sortLE_trans : ∀ (a b c : ScoredComp), sortLE a b → sortLE b c → sortLE a c := by
  intro a b c hab hbc
  simp only [sortLE, decide_eq_true_eq] at hab hbc ⊢
  exact le_trans hbc hab

theorem sortLE_total : ∀ (a b : ScoredComp), sortLE a b || sortLE b a := by
  intro a b
  simp only [sortLE, Bool.or_eq_true, decide_eq_true_eq]
  exact le_total b.score a.score

/-- C6: the ranked sequence is pairwise non-increasing in score, has at
most max_results elements, and is empty when no candidate qualifies;
moreover the sort is stable: sorting the index-tagged scored list with the
same comparison gives exactly the returned order (fourth conjunct), and in
that order equal scores keep increasing input indices (fifth conjunct). -/
theorem c6_ranking (d : ℚ → ℚ → ℚ → ℚ → ℚ) (now : ℤ) (s : Property)
    (pool : List (Property × PropertySale)) (max_results : ℕ) :
    (find_comparables d now s pool max_results).Pairwise (fun a b => b.score ≤ a.score) ∧
    (find_comparables d now s pool max_results).length ≤ max_results ∧
    (pool.filter (qualifies now s) = [] → find_comparables d now s pool max_results = []) ∧
    (List.mergeSort (scored_comps d now s pool).enum (List.enumLE sortLE)).map (fun p => p.2) =
      (scored_comps d now s pool).mergeSort sortLE ∧
    (List.mergeSort (scored_comps d now s pool).enum (List.enumLE sortLE)).Pairwise
      (fun a b => a.2.score = b.2.score → a.1 ≤ b.1) := by
  refine ⟨?_, ?_, ?_, ?_, ?_⟩
  · have hs := List.sorted_mergeSort sortLE_trans sortLE_total (scored_comps d now s pool)
    have ht := List.Pairwise.sublist (List.take_sublist max_results _) hs
    exact ht.imp (fun h => by simpa [sortLE] using h)
  · simp only [find_comparables]
    exact List.length_take_le _ _
  · intro h
    simp [find_comparables, scored_comps, h, List.mergeSort_nil]
  · exact List.mergeSort_enum
  · have hp := List.sorted_mergeSort (List.enumLE_trans sortLE_trans)
      (List.enumLE_total sortLE_total) ((scored_comps d now s pool).enum)
    refine hp.imp (fun {a b} h => ?_)
    intro heq
    have h1 : sortLE a.2 b.2 = true := by simp [sortLE, heq]
    have h2 : sortLE b.2 a.2 = true := by simp [sortLE, heq]
    simp only [List.enumLE, h1, h2, if_true] at h
    exact of_decide_eq_true h

/-- C6 (witness): the theorem applied to the empty pool, discharging the
no-qualifying-candidate hypothesis. -/
theorem c6_witness :
    (find_comparables d0 0 blankProperty [] 6).Pairwise (fun a b => b.score ≤ a.score) ∧
    (find_comparables d0 0 blankProperty [] 6).length ≤ 6 ∧
    find_comparables d0 0 blankProperty [] 6 = [] := by
  have h := c6_ranking d0 0 blankProperty [] 6
  exact ⟨h.1, h.2.1, h.2.2.1 rfl⟩

/-! ### C7: eligibility of the returned candidates -/

/-- C7 (amended): provided the subject's primary key is truthy (present
and nonzero), every returned comparable has a property id different from
the subject's, sale classification sold, and sale date at least
now - 180; the code does not bound sale dates from above, so future-dated
sales are not excluded (see the counterexample). -/
theorem c7_eligibility (d : ℚ → ℚ → ℚ → ℚ → ℚ) (now : ℤ) (s : Property)
    (pool : List (Property × PropertySale)) (max_results : ℕ)
    (hid : truthyId s.id = true) :
    ∀ x ∈ find_comparables d now s pool max_results,
      x.prop.id ≠ s.id ∧ x.sale.sale_type = "sold" ∧ now - 180 ≤ x.sale.sale_date := by
  intro x hx
  have hx1 : x ∈ (scored_comps d now s pool).mergeSort sortLE :=
    List.take_subset _ _ hx
  have hx2 : x ∈ scored_comps d now s pool := List.mem_mergeSort.mp hx1
  simp only [scored_comps, List.mem_map] at hx2
  obtain ⟨pc, hmem, rfl⟩ := hx2
  have hq := (List.mem_filter.mp hmem).2
  simp only [qualifies, hid, if_true, Bool.and_eq_true, decide_eq_true_eq, beq_iff_eq] at hq
  exact ⟨hq.2, hq.1.2, hq.1.1⟩

/-- C7 (witness): the amended theorem at a subject with id 5 and a pool
with one sold, recent candidate with id 7. -/
theorem c7_witness :
    truthyId ({ blankProperty with id := some 5 } : Property).id = true ∧
    ∀ x ∈ find_comparables d0 100 { blankProperty with id := some 5 }
        [({ blankProperty with id := some 7 }, mkSale 100000 50)] 6,
      x.prop.id ≠ ({ blankProperty with id := some 5 } : Property).id ∧
      x.sale.sale_type = "sold" ∧ (100:ℤ) - 180 ≤ x.sale.sale_date :=
  ⟨by decide, c7_eligibility d0 100 _ _ 6 (by decide)⟩

/-- C7 (counterexample): a subject whose primary key is 0 is treated as
falsy, so an identically keyed candidate (by primary-key identity, the
subject itself) is returned; and a sale dated 1000 days in the future is
also returned, although it is not within the 180-day recency window. -/
theorem c7_counterexample :
    (find_comparables d0 100 { blankProperty with id := some 0 }
        [({ blankProperty with id := some 0 }, mkSale 100000 50)] 6).map
      (fun x => x.prop.id) = [some 0] ∧
    (find_comparables d0 100 { blankProperty with id := some 5 }
        [({ blankProperty with id := some 7 }, mkSale 100000 1100)] 6).map
      (fun x => x.sale.sale_date) = [1100] := by
  constructor
  · rw [find_comparables_single d0 100 _ _ (by decide)]
    rfl
  · rw [find_comparables_single d0 100 _ _ (by decide)]
    rfl

/-! ### C10: zero optional values behave exactly like absent ones -/

/-- C10: replacing every zero value of the five optional numeric columns
by an absent one changes neither the similarity score nor the adjustment
set, and a zero bedroom count on either side makes the bedroom factor
contribute 0 and the bedroom adjustment entry be omitted: a legitimate
zero value is indistinguishable from a missing field. -/
theorem c10_zero_as_missing (d : ℚ → ℚ → ℚ → ℚ → ℚ) (now : ℤ)
    (s c : Property) (sale : PropertySale) :
    _calculate_similarity_score d (zeroToNone s) (zeroToNone c) =
        _calculate_similarity_score d s c ∧
    calculate_adjustments now (zeroToNone s) (zeroToNone c) sale =
        calculate_adjustments now s c sale ∧
    bedroom_term { s with bedrooms := some 0 } c = 0 ∧
    bedroom_term s { c with bedrooms := some 0 } = 0 ∧
    (calculate_adjustments now { s with bedrooms := some 0 } c sale).bedroom_adjustment =
        none := by
  refine ⟨?_, ?_, ?_, ?_, ?_⟩
  · simp [_calculate_similarity_score, size_term, bedroom_term, bathroom_term, age_term,
      proximity_term, zeroToNone, truthy_znQ, getD_znQ]
  · simp [calculate_adjustments, _calculate_size_adjustment, _calculate_bedroom_adjustment,
      _calculate_bathroom_adjustment, _calculate_age_adjustment, _calculate_lot_size_adjustment,
      zeroToNone, truthy_znQ, getD_znQ]
  · simp [bedroom_term, truthy]
  · simp [bedroom_term, truthy]
  · simp [calculate_adjustments, _calculate_bedroom_adjustment, truthy, entry]

/-! ### C3: behaviour on a structurally invalid record -/

/-- C3 (evaluation at the failing input): a sold record with the
non-positive sale price -100 is not rejected anywhere; the analysis
returns normally and the invalid price flows into the estimate
(most_likely -100, adjusted price -100).  No InvalidInput error exists in
the code, contradicting the claim that structurally invalid records raise
and abort. -/
theorem c3_negative_price_propagates :
    (perform_cma_analysis d0 0 blankProperty [(blankProperty, mkSale (-100) 0)]).estimated_value =
      { low := -98, high := -102, most_likely := -100 } ∧
    (perform_cma_analysis d0 0 blankProperty [(blankProperty, mkSale (-100) 0)]).comparables.map
      (fun i => i.adjusted_price) = [-100] := by
  rw [perform_cma_analysis, find_comparables_single d0 0 _ _ (by decide)]
  norm_num [mkComparableInfo, adjustedPriceOf, calculate_adjustments, calculate_adjusted_price,
    _calculate_size_adjustment, _calculate_bedroom_adjustment, _calculate_bathroom_adjustment,
    _calculate_age_adjustment, _calculate_lot_size_adjustment, _calculate_time_adjustment,
    _calculate_similarity_score, size_term, bedroom_term, bathroom_term, age_term, proximity_term,
    estimatedValueOf, pyMin, pyMax, pyInt_eq, truthy, entry, blankProperty, mkSale, d0,
    Int.ceil_neg, Int.ceil_ofNat, Int.floor_ofNat]

/-! ### C4: determinism of an analysis invocation -/

/-- C4 (counterexample): the same subject, pool and configuration analysed
at two clock values (30 and 170 days after the sale) give different
valuations, because the time adjustment reads the wall clock; the result
is therefore not a function of (subject, pool, configuration) alone. -/
theorem c4_counterexample :
    (perform_cma_analysis d0 30 blankProperty [(blankProperty, mkSale 100000 0)]).estimated_value ≠
    (perform_cma_analysis d0 170 blankProperty [(blankProperty, mkSale 100000 0)]).estimated_value := by
  have h1 : (perform_cma_analysis d0 30 blankProperty
      [(blankProperty, mkSale 100000 0)]).estimated_value =
      { low := 98000, high := 102000, most_likely := 100000 } := by
    rw [perform_cma_analysis, find_comparables_single d0 30 _ _ (by decide)]
    norm_num [mkComparableInfo, adjustedPriceOf, calculate_adjustments, calculate_adjusted_price,
      _calculate_size_adjustment, _calculate_bedroom_adjustment, _calculate_bathroom_adjustment,
      _calculate_age_adjustment, _calculate_lot_size_adjustment, _calculate_time_adjustment,
      _calculate_similarity_score, size_term, bedroom_term, bathroom_term, age_term,
      proximity_term, estimatedValueOf, pyMin, pyMax, pyInt_eq, truthy, entry, blankProperty,
      mkSale, d0, Int.ceil_neg, Int.ceil_ofNat, Int.floor_ofNat]
  have h2 : (perform_cma_analysis d0 170 blankProperty
      [(blankProperty, mkSale 100000 0)]).estimated_value =
      { low := 98870, high := 102905, most_likely := 100888 } := by
    rw [perform_cma_analysis, find_comparables_single d0 170 _ _ (by decide)]
    norm_num [mkComparableInfo, adjustedPriceOf, calculate_adjustments, calculate_adjusted_price,
      _calculate_size_adjustment, _calculate_bedroom_adjustment, _calculate_bathroom_adjustment,
      _calculate_age_adjustment, _calculate_lot_size_adjustment, _calculate_time_adjustment,
      _calculate_similarity_score, size_term, bedroom_term, bathroom_term, age_term,
      proximity_term, estimatedValueOf, pyMin, pyMax, pyInt_eq, truthy, entry, blankProperty,
      mkSale, d0, min_def, Int.ceil_neg, Int.ceil_ofNat, Int.floor_ofNat]
  rw [h1, h2]
  simp

/-- C4 (amended): with the clock made an explicit input, each analysis is
a pure function of (subject, pool, configuration, current time): equal
inputs give equal results, with no hidden state in the model. -/
theorem c4_deterministic_given_clock (d d' : ℚ → ℚ → ℚ → ℚ → ℚ) (now now' : ℤ)
    (s s' : Property) (pool pool' : List (Property × PropertySale))
    (h1 : d = d') (h2 : now = now') (h3 : s = s') (h4 : pool = pool') :
    perform_cma_analysis d now s pool = perform_cma_analysis d' now' s' pool' := by
  subst h1; subst h2; subst h3; subst h4; rfl

/-- C4 (witness): the amended theorem applied to identical concrete
inputs. -/
theorem c4_witness :
    perform_cma_analysis d0 0 blankProperty [] = perform_cma_analysis d0 0 blankProperty [] :=
  c4_deterministic_given_clock d0 d0 0 0 blankProperty blankProperty [] [] rfl rfl rfl rfl

/-! ### C9: the empty-pool fallback -/

/-- C9: when no candidate qualifies, the analysis returns exactly the
fixed fallback (low 350000, high 450000, most likely 400000), confidence
0.3, and the single synthetic no-comparables entry, without any error
path (the function is total). -/
theorem c9_fallback (d : ℚ → ℚ → ℚ → ℚ → ℚ) (now : ℤ) (s : Property)
    (pool : List (Property × PropertySale))
    (h : pool.filter (qualifies now s) = []) :
    perform_cma_analysis d now s pool =
      { estimated_value := { low := 350000, high := 450000, most_likely := 400000 }
        comparables := [fallbackComparable s]
        confidence_score := 3/10
        adjustment_summary := none } := by
  have hfc : find_comparables d now s pool 6 = [] := by
    simp [find_comparables, scored_comps, h, List.mergeSort_nil]
  rw [perform_cma_analysis, hfc]

/-- C9 (witness): the theorem applied to the empty pool. -/
theorem c9_witness :
    perform_cma_analysis d0 0 blankProperty [] =
      { estimated_value := { low := 350000, high := 450000, most_likely := 400000 }
        comparables := [fallbackComparable blankProperty]
        confidence_score := 3/10
        adjustment_summary := none } :=
  c9_fallback d0 0 blankProperty [] rfl

end CMA
